import Mathlib

/-!
Shallow embedding of the NES_emu 6502 CPU core (cpu.c, bus.c, memory.c) and
proofs about the claims of its specification.

Machine integers are modelled as Nat with explicit truncation: a C Byte store
is a value taken mod 256, a C Word store is a value taken mod 65536.  Memory
is a total function from addresses to stored values; bus reads apply the
Byte/Word typing of the C prototypes (address mod 65536, value mod 256).
The dispatch loop of cpu_execute, which the C source runs as a while loop
over an unsigned byte budget, is embedded with an explicit fuel parameter
bounding the number of loop iterations; the loop guard (cycles > 0 on an
unsigned byte, i.e. cycles different from 0) is tested exactly as in the
source.
-/

namespace NES

set_option maxRecDepth 8000

/-- Flag bit positions, from the Flags enum in cpu.h. -/
def C : Nat := 0

/-- Zero flag position. -/
def Z : Nat := 1

/-- IRQ-disable flag position. -/
def I : Nat := 2

/-- Decimal flag position. -/
def D : Nat := 3

/-- Break flag position. -/
def B : Nat := 4

/-- Unused flag position (forced to 1 on every flag write). -/
def U : Nat := 5

/-- Overflow flag position. -/
def V : Nat := 6

/-- Negative flag position. -/
def N : Nat := 7

/-- Register file, from the Regs struct of cpu.h (A, X, Y inlined into CPU). -/
structure CPU where
  PC : Nat
  SP : Nat
  A : Nat
  X : Nat
  Y : Nat
  flags : Nat

/-- Whole-machine state: the CPU registers, the 64 KiB memory singleton of
memory.c, and the local cycle budget of cpu_execute. -/
structure Machine where
  cpu : CPU
  mem : Nat → Nat
  cycles : Nat

/-- memory.c mem_read: return mem at addr; the Word parameter type reduces
the address mod 65536 and the Byte array cell holds a value mod 256. -/
def mem_read (m : Nat → Nat) (addr : Nat) : Nat :=
  m (addr % 65536) % 256

/-- memory.c mem_write: store data mod 256 (Byte) at addr mod 65536 (Word). -/
def mem_write (m : Nat → Nat) (addr data : Nat) : Nat → Nat :=
  fun x => if x = addr % 65536 then data % 256 else m x

/-- memory.c mem_reset: memset the backing array to zero. -/
def mem_reset (_m : Nat → Nat) : Nat → Nat :=
  fun _ => 0

/-- bus.c bus_read: every 16-bit address is mapped, so forward to mem_read
(the MEM_START/MEM_END range test on a Word is always true). -/
def bus_read (m : Nat → Nat) (addr : Nat) : Nat :=
  mem_read m addr

/-- bus.c bus_write: forward to mem_write. -/
def bus_write (m : Nat → Nat) (addr data : Nat) : Nat → Nat :=
  mem_write m addr data

/-- bus.c bus_reset: forward to mem_reset. -/
def bus_reset (m : Nat → Nat) : Nat → Nat :=
  mem_reset m

/-- cpu.c cpu_read_flag: (flags >> flag) & 0x01. -/
def cpu_read_flag (flag : Nat) (cpu : CPU) : Nat :=
  (cpu.flags >>> flag) &&& 1

/-- cpu.c cpu_set_flag: set or clear the bit at position flag according to
value, then unconditionally force the U bit (mask 0x20) on. -/
def cpu_set_flag (flag value : Nat) (cpu : CPU) : CPU :=
  let mask := (1 <<< flag) % 256
  let f := if value = 0 then cpu.flags &&& (255 ^^^ mask) else cpu.flags ||| mask
  { cpu with flags := f ||| (1 <<< U) }

/-- cpu.c cpu_toggle_flag: XOR the bit at position flag. -/
def cpu_toggle_flag (flag : Nat) (cpu : CPU) : CPU :=
  { cpu with flags := cpu.flags ^^^ ((1 <<< flag) % 256) }

/-- cpu.c stack_push: write value to 0x100 + SP, then decrement SP with
Byte wrap-around. -/
def stack_push (value : Nat) (s : Machine) : Machine :=
  { s with
    mem := bus_write s.mem (0x100 + s.cpu.SP) value
    cpu := { s.cpu with SP := (s.cpu.SP + 255) % 256 } }

/-- cpu.c stack_pop: increment SP with Byte wrap-around, then read from
0x100 + SP. -/
def stack_pop (s : Machine) : Nat × Machine :=
  let sp := (s.cpu.SP + 1) % 256
  (bus_read s.mem (0x100 + sp), { s with cpu := { s.cpu with SP := sp } })

/-- cpu.c fetch_program_byte: read at PC, then increment PC (Word wrap). -/
def fetch_program_byte (s : Machine) : Nat × Machine :=
  (bus_read s.mem s.cpu.PC,
   { s with cpu := { s.cpu with PC := (s.cpu.PC + 1) % 65536 } })

/-- cpu.c fetch_program_word: fetch low byte then high byte, assemble
little-endian as lo | (hi << 8). -/
def fetch_program_word (s : Machine) : Nat × Machine :=
  let p1 := fetch_program_byte s
  let p2 := fetch_program_byte p1.2
  (p1.1 ||| (p2.1 <<< 8), p2.2)

/-- Subtraction on the unsigned Byte cycle budget: cycles -= k in C, with
wrap-around mod 256. -/
def bsub (a k : Nat) : Nat :=
  (a + 256 - k % 256) % 256

/-- cpu.c set_NZ_flags: Z from A == 0, N from bit 7 of A. -/
def set_NZ_flags (cpu : CPU) : CPU :=
  cpu_set_flag N ((cpu.A >>> 7) &&& 1)
    (cpu_set_flag Z (if cpu.A = 0 then 1 else 0) cpu)

/-- cpu.c read_bit: (value >> position) & 0x01. -/
def read_bit (value position : Nat) : Nat :=
  (value >>> position) &&& 1

/-- cpu.c indexed_LDA_ABS: fetch a word base, add the index (Word store),
charge the page-cross penalty, load A from the effective address. -/
def indexed_LDA_ABS (s : Machine) (index : Nat) : Machine :=
  let p := fetch_program_word s
  let s1 := p.2
  let base := p.1
  let addr := (base + index) % 65536
  let extra := if (addr &&& 0xFF00) = (base &&& 0xFF00) then 0 else 1
  { s1 with
    cpu := { s1.cpu with A := bus_read s1.mem addr }
    cycles := bsub s1.cycles (4 + extra) }

/-- cpu.c indexed_STA_ABS: fetch a word base, add the index, store A; no
page-cross penalty is charged here (the caller subtracts a fixed cost). -/
def indexed_STA_ABS (s : Machine) (index : Nat) : Machine :=
  let p := fetch_program_word s
  let s1 := p.2
  let addr := (p.1 + index) % 65536
  { s1 with mem := bus_write s1.mem addr s1.cpu.A }

/-- cpu.c indexed_AND_ABS: like indexed_LDA_ABS but ANDs into A. -/
def indexed_AND_ABS (s : Machine) (index : Nat) : Machine :=
  let p := fetch_program_word s
  let s1 := p.2
  let base := p.1
  let addr := (base + index) % 65536
  let extra := if (addr &&& 0xFF00) = (base &&& 0xFF00) then 0 else 1
  { s1 with
    cpu := { s1.cpu with A := s1.cpu.A &&& bus_read s1.mem addr }
    cycles := bsub s1.cycles (4 + extra) }

/-- cpu.c branch: fetch the relative operand, sign-extend it, and if the
flag value equals carry_val take the branch, charging 2 cycles plus 1 if
taken plus 1 more if the taken target is on a different page than the
post-operand PC. -/
def branch (s : Machine) (flag carry_val : Nat) : Machine :=
  let p := fetch_program_byte s
  let s1 := p.2
  let operand := p.1
  let off := if 128 ≤ operand then operand + 65280 else operand
  if flag = carry_val then
    let new_PC := (s1.cpu.PC + off) % 65536
    let extra := if (s1.cpu.PC &&& 0xFF00) = (new_PC &&& 0xFF00) then 0 else 1
    { s1 with
      cpu := { s1.cpu with PC := new_PC }
      cycles := bsub s1.cycles (3 + extra) }
  else
    { s1 with cycles := bsub s1.cycles 2 }

/-- cpu.c cpu_reset (part_001, the cpu.c the harness is linked against):
PC = 0x01FF, SP = 0xFF, A = X = Y = 0, flags = 0b00100100, bus reset. -/
def cpu_reset (s : Machine) : Machine :=
  { s with
    cpu := { PC := 0x01FF, SP := 0xFF, A := 0, X := 0, Y := 0, flags := 0b00100100 }
    mem := bus_reset s.mem }

/-- case OPC_LDA_IM (0xA9): A := immediate operand; N,Z; 2 cycles. -/
def exec_LDA_IM (s : Machine) : Machine :=
  let p := fetch_program_byte s
  let s1 := p.2
  let s2 := { s1 with cpu := { s1.cpu with A := p.1 } }
  let s3 := { s2 with cpu := set_NZ_flags s2.cpu }
  { s3 with cycles := bsub s3.cycles 2 }

/-- case OPC_LDA_ZP (0xA5): A := mem[operand & 0xFF]; N,Z; 3 cycles. -/
def exec_LDA_ZP (s : Machine) : Machine :=
  let p := fetch_program_byte s
  let s1 := p.2
  let s2 := { s1 with cpu := { s1.cpu with A := bus_read s1.mem (p.1 &&& 0xFF) } }
  let s3 := { s2 with cpu := set_NZ_flags s2.cpu }
  { s3 with cycles := bsub s3.cycles 3 }

/-- case OPC_LDA_ZPX (0xB5): Byte addr = operand + X (wraps); A := mem[addr];
N,Z; 4 cycles. -/
def exec_LDA_ZPX (s : Machine) : Machine :=
  let p := fetch_program_byte s
  let s1 := p.2
  let addr := (p.1 + s1.cpu.X) % 256
  let s2 := { s1 with cpu := { s1.cpu with A := bus_read s1.mem (addr &&& 0xFF) } }
  let s3 := { s2 with cpu := set_NZ_flags s2.cpu }
  { s3 with cycles := bsub s3.cycles 4 }

/-- case OPC_LDA_ABS (0xAD): A := mem[word operand]; N,Z; 4 cycles. -/
def exec_LDA_ABS (s : Machine) : Machine :=
  let p := fetch_program_word s
  let s1 := p.2
  let s2 := { s1 with cpu := { s1.cpu with A := bus_read s1.mem p.1 } }
  let s3 := { s2 with cpu := set_NZ_flags s2.cpu }
  { s3 with cycles := bsub s3.cycles 4 }

/-- case OPC_LDA_ABSX (0xBD): indexed_LDA_ABS with X, then N,Z. -/
def exec_LDA_ABSX (s : Machine) : Machine :=
  let s1 := indexed_LDA_ABS s s.cpu.X
  { s1 with cpu := set_NZ_flags s1.cpu }

/-- case OPC_LDA_ABSY (0xB9): indexed_LDA_ABS with Y, then N,Z. -/
def exec_LDA_ABSY (s : Machine) : Machine :=
  let s1 := indexed_LDA_ABS s s.cpu.Y
  { s1 with cpu := set_NZ_flags s1.cpu }

/-- case OPC_LDA_INDX (0xA1): pointer at (operand + X) & 0xFF within page
zero; A := mem[pointer]; N,Z; 5 cycles. -/
def exec_LDA_INDX (s : Machine) : Machine :=
  let p := fetch_program_byte s
  let s1 := p.2
  let wrapped := (p.1 + s1.cpu.X) &&& 0xFF
  let lo := bus_read s1.mem (wrapped &&& 0xFF)
  let hi := bus_read s1.mem ((wrapped + 1) &&& 0xFF)
  let addr := lo ||| (hi <<< 8)
  let s2 := { s1 with cpu := { s1.cpu with A := bus_read s1.mem addr } }
  let s3 := { s2 with cpu := set_NZ_flags s2.cpu }
  { s3 with cycles := bsub s3.cycles 5 }

/-- case OPC_LDA_INDY (0xB1): pointer at operand / (operand + 1) & 0xFF, add
Y; page-cross penalty; A := mem[addr]; N,Z; 5+extra cycles. -/
def exec_LDA_INDY (s : Machine) : Machine :=
  let p := fetch_program_byte s
  let s1 := p.2
  let lo := bus_read s1.mem p.1
  let hi := bus_read s1.mem ((p.1 + 1) &&& 0xFF)
  let base := lo ||| (hi <<< 8)
  let addr := (base + s1.cpu.Y) % 65536
  let extra := if (addr &&& 0xFF00) = (base &&& 0xFF00) then 0 else 1
  let s2 := { s1 with cpu := { s1.cpu with A := bus_read s1.mem addr } }
  let s3 := { s2 with cpu := set_NZ_flags s2.cpu }
  { s3 with cycles := bsub s3.cycles (5 + extra) }

/-- case OPC_STA_ZP (0x85): mem[operand] := A; 3 cycles; flags untouched. -/
def exec_STA_ZP (s : Machine) : Machine :=
  let p := fetch_program_byte s
  let s1 := p.2
  { s1 with mem := bus_write s1.mem p.1 s1.cpu.A, cycles := bsub s1.cycles 3 }

/-- case OPC_STA_ZPX (0x95): mem[(operand + X) & 0xFF] := A; 4 cycles. -/
def exec_STA_ZPX (s : Machine) : Machine :=
  let p := fetch_program_byte s
  let s1 := p.2
  let addr := (p.1 + s1.cpu.X) &&& 0xFF
  { s1 with mem := bus_write s1.mem addr s1.cpu.A, cycles := bsub s1.cycles 4 }

/-- case OPC_STA_ABS (0x8D): mem[word operand] := A; 4 cycles. -/
def exec_STA_ABS (s : Machine) : Machine :=
  let p := fetch_program_word s
  let s1 := p.2
  { s1 with mem := bus_write s1.mem p.1 s1.cpu.A, cycles := bsub s1.cycles 4 }

/-- case OPC_STA_ABSX (0x9D): indexed_STA_ABS with X; fixed 5 cycles. -/
def exec_STA_ABSX (s : Machine) : Machine :=
  let s1 := indexed_STA_ABS s s.cpu.X
  { s1 with cycles := bsub s1.cycles 5 }

/-- case OPC_STA_ABSY (0x99): indexed_STA_ABS with Y; fixed 5 cycles. -/
def exec_STA_ABSY (s : Machine) : Machine :=
  let s1 := indexed_STA_ABS s s.cpu.Y
  { s1 with cycles := bsub s1.cycles 5 }

/-- case OPC_STA_INDX (0x81): pre-indexed pointer, store A; 6 cycles. -/
def exec_STA_INDX (s : Machine) : Machine :=
  let p := fetch_program_byte s
  let s1 := p.2
  let wrapped := (p.1 + s1.cpu.X) &&& 0xFF
  let lo := bus_read s1.mem (wrapped &&& 0xFF)
  let hi := bus_read s1.mem ((wrapped + 1) &&& 0xFF)
  let addr := lo ||| (hi <<< 8)
  { s1 with mem := bus_write s1.mem addr s1.cpu.A, cycles := bsub s1.cycles 6 }

/-- case OPC_STA_INDY (0x91): post-indexed pointer, store A; fixed 6 cycles. -/
def exec_STA_INDY (s : Machine) : Machine :=
  let p := fetch_program_byte s
  let s1 := p.2
  let lo := bus_read s1.mem (p.1 &&& 0xFF)
  let hi := bus_read s1.mem ((p.1 + 1) &&& 0xFF)
  let base := lo ||| (hi <<< 8)
  let addr := (base + s1.cpu.Y) % 65536
  { s1 with mem := bus_write s1.mem addr s1.cpu.A, cycles := bsub s1.cycles 6 }

/-- case OPC_ADC_IM (0x69), transcribed in source order: result is computed
on a Word, then set_NZ_flags runs on the still-unchanged accumulator, then
C and V are set, and only then is the truncated result stored in A. -/
def exec_ADC_IM (s : Machine) : Machine :=
  let p := fetch_program_byte s
  let s1 := p.2
  let operand := p.1
  let result := (s1.cpu.A + operand + cpu_read_flag C s1.cpu) % 65536
  let c1 := set_NZ_flags s1.cpu
  let c2 := cpu_set_flag C (if 0xFF < result then 1 else 0) c1
  let c3 := cpu_set_flag V
    (if ((c2.A ^^^ result) &&& (operand ^^^ result) &&& 0x80) = 0 then 0 else 1) c2
  let c4 := { c3 with A := result &&& 0xFF }
  { s1 with cpu := c4, cycles := bsub s1.cycles 2 }

/-- case OPC_AND_IM (0x29): A := A & operand; N,Z; 2 cycles. -/
def exec_AND_IM (s : Machine) : Machine :=
  let p := fetch_program_byte s
  let s1 := p.2
  let s2 := { s1 with cpu := { s1.cpu with A := s1.cpu.A &&& p.1 } }
  let s3 := { s2 with cpu := set_NZ_flags s2.cpu }
  { s3 with cycles := bsub s3.cycles 2 }

/-- case OPC_AND_ZP (0x25): A := A & mem[operand & 0xFF]; N,Z; 3 cycles. -/
def exec_AND_ZP (s : Machine) : Machine :=
  let p := fetch_program_byte s
  let s1 := p.2
  let s2 := { s1 with cpu := { s1.cpu with A := s1.cpu.A &&& bus_read s1.mem (p.1 &&& 0xFF) } }
  let s3 := { s2 with cpu := set_NZ_flags s2.cpu }
  { s3 with cycles := bsub s3.cycles 3 }

/-- case OPC_AND_ZPX (0x35): Byte addr = operand + X (wraps); A &= mem[addr];
N,Z; 4 cycles. -/
def exec_AND_ZPX (s : Machine) : Machine :=
  let p := fetch_program_byte s
  let s1 := p.2
  let addr := (p.1 + s1.cpu.X) % 256
  let s2 := { s1 with cpu := { s1.cpu with A := s1.cpu.A &&& bus_read s1.mem (addr &&& 0xFF) } }
  let s3 := { s2 with cpu := set_NZ_flags s2.cpu }
  { s3 with cycles := bsub s3.cycles 4 }

/-- case OPC_AND_ABS (0x2D): A := A & mem[word operand]; N,Z; 4 cycles. -/
def exec_AND_ABS (s : Machine) : Machine :=
  let p := fetch_program_word s
  let s1 := p.2
  let s2 := { s1 with cpu := { s1.cpu with A := s1.cpu.A &&& bus_read s1.mem p.1 } }
  let s3 := { s2 with cpu := set_NZ_flags s2.cpu }
  { s3 with cycles := bsub s3.cycles 4 }

/-- case OPC_AND_ABSX (0x3D): indexed_AND_ABS with X, then N,Z. -/
def exec_AND_ABSX (s : Machine) : Machine :=
  let s1 := indexed_AND_ABS s s.cpu.X
  { s1 with cpu := set_NZ_flags s1.cpu }

/-- case OPC_AND_ABSY (0x39): indexed_AND_ABS with Y, then N,Z. -/
def exec_AND_ABSY (s : Machine) : Machine :=
  let s1 := indexed_AND_ABS s s.cpu.Y
  { s1 with cpu := set_NZ_flags s1.cpu }

/-- case OPC_AND_INDX (0x21): pre-indexed pointer; A &= mem[addr]; N,Z;
6 cycles. -/
def exec_AND_INDX (s : Machine) : Machine :=
  let p := fetch_program_byte s
  let s1 := p.2
  let wrapped := (p.1 + s1.cpu.X) &&& 0xFF
  let lo := bus_read s1.mem (wrapped &&& 0xFF)
  let hi := bus_read s1.mem ((wrapped + 1) &&& 0xFF)
  let addr := lo ||| (hi <<< 8)
  let s2 := { s1 with cpu := { s1.cpu with A := s1.cpu.A &&& bus_read s1.mem addr } }
  let s3 := { s2 with cpu := set_NZ_flags s2.cpu }
  { s3 with cycles := bsub s3.cycles 6 }

/-- case OPC_AND_INDY (0x31): post-indexed pointer with page-cross penalty;
A &= mem[addr]; N,Z; 5+extra cycles. -/
def exec_AND_INDY (s : Machine) : Machine :=
  let p := fetch_program_byte s
  let s1 := p.2
  let lo := bus_read s1.mem p.1
  let hi := bus_read s1.mem ((p.1 + 1) &&& 0xFF)
  let base := lo ||| (hi <<< 8)
  let addr := (base + s1.cpu.Y) % 65536
  let extra := if (addr &&& 0xFF00) = (base &&& 0xFF00) then 0 else 1
  let s2 := { s1 with cpu := { s1.cpu with A := s1.cpu.A &&& bus_read s1.mem addr } }
  let s3 := { s2 with cpu := set_NZ_flags s2.cpu }
  { s3 with cycles := bsub s3.cycles (5 + extra) }

/-- case OPC_ASL_ACC (0x0A): A := (A << 1) & 0xFF, then N,Z from the new A,
then C from the shifted-out bit; 2 cycles. -/
def exec_ASL_ACC (s : Machine) : Machine :=
  let shifted := (s.cpu.A <<< 1) % 65536
  let c1 := { s.cpu with A := shifted &&& 0xFF }
  let c2 := set_NZ_flags c1
  let c3 := cpu_set_flag C (if 0xFF < shifted then 1 else 0) c2
  { s with cpu := c3, cycles := bsub s.cycles 2 }

/-- case OPC_ASL_ZP (0x1A per opcodes.h): shift mem[operand & 0xFF] left,
write back to mem[operand]; Z from the untruncated shifted Word; 5 cycles. -/
def exec_ASL_ZP (s : Machine) : Machine :=
  let p := fetch_program_byte s
  let s1 := p.2
  let operand := p.1
  let value := bus_read s1.mem (operand &&& 0xFF)
  let shifted := (value <<< 1) % 65536
  let s2 := { s1 with mem := bus_write s1.mem operand (shifted &&& 0xFF) }
  let c1 := cpu_set_flag Z (if shifted = 0 then 1 else 0) s2.cpu
  let c2 := cpu_set_flag N (((shifted &&& 0xFF) >>> 7) &&& 1) c1
  let c3 := cpu_set_flag C (if 0xFF < shifted then 1 else 0) c2
  { s2 with cpu := c3, cycles := bsub s2.cycles 5 }

/-- case OPC_ASL_ZPX (0x16), transcribed exactly: a Byte addr = operand + X
is computed but never used; the read and the write-back both use the raw
operand. -/
def exec_ASL_ZPX (s : Machine) : Machine :=
  let p := fetch_program_byte s
  let s1 := p.2
  let operand := p.1
  let addr := (operand + s1.cpu.X) % 256
  let value := bus_read s1.mem (operand &&& 0xFF)
  let shifted := (value <<< 1) % 65536
  let s2 := { s1 with mem := bus_write s1.mem operand (shifted &&& 0xFF) }
  let c1 := cpu_set_flag Z (if shifted = 0 then 1 else 0) s2.cpu
  let c2 := cpu_set_flag N (((shifted &&& 0xFF) >>> 7) &&& 1) c1
  let c3 := cpu_set_flag C (if 0xFF < shifted then 1 else 0) c2
  let _ := addr
  { s2 with cpu := c3, cycles := bsub s2.cycles 6 }

/-- case OPC_ASL_ABS (0x0E): shift mem[word operand] left in place;
6 cycles. -/
def exec_ASL_ABS (s : Machine) : Machine :=
  let p := fetch_program_word s
  let s1 := p.2
  let operand := p.1
  let value := bus_read s1.mem operand
  let shifted := (value <<< 1) % 65536
  let s2 := { s1 with mem := bus_write s1.mem operand (shifted &&& 0xFF) }
  let c1 := cpu_set_flag Z (if shifted = 0 then 1 else 0) s2.cpu
  let c2 := cpu_set_flag N (((shifted &&& 0xFF) >>> 7) &&& 1) c1
  let c3 := cpu_set_flag C (if 0xFF < shifted then 1 else 0) c2
  { s2 with cpu := c3, cycles := bsub s2.cycles 6 }

/-- case OPC_ASL_ABSX (0x1E): shift mem[base + X] left in place; 7 cycles. -/
def exec_ASL_ABSX (s : Machine) : Machine :=
  let p := fetch_program_word s
  let s1 := p.2
  let addr := (p.1 + s1.cpu.X) % 65536
  let value := bus_read s1.mem addr
  let shifted := (value <<< 1) % 65536
  let s2 := { s1 with mem := bus_write s1.mem addr (shifted &&& 0xFF) }
  let c1 := cpu_set_flag Z (if shifted = 0 then 1 else 0) s2.cpu
  let c2 := cpu_set_flag N (((shifted &&& 0xFF) >>> 7) &&& 1) c1
  let c3 := cpu_set_flag C (if 0xFF < shifted then 1 else 0) c2
  { s2 with cpu := c3, cycles := bsub s2.cycles 7 }

/-- case OPC_BIT_ZP (0x24): Z from A & mem[operand & 0xFF], N from bit 7 of
the operand byte, V from bit 6; 3 cycles. -/
def exec_BIT_ZP (s : Machine) : Machine :=
  let p := fetch_program_byte s
  let s1 := p.2
  let value := bus_read s1.mem (p.1 &&& 0xFF)
  let c1 := cpu_set_flag Z (if s1.cpu.A &&& value = 0 then 1 else 0) s1.cpu
  let c2 := cpu_set_flag N (read_bit value 7) c1
  let c3 := cpu_set_flag V (read_bit value 6) c2
  { s1 with cpu := c3, cycles := bsub s1.cycles 3 }

/-- case OPC_BIT_ABS (0x2C): same as BIT_ZP with an absolute word operand;
4 cycles. -/
def exec_BIT_ABS (s : Machine) : Machine :=
  let p := fetch_program_word s
  let s1 := p.2
  let value := bus_read s1.mem p.1
  let c1 := cpu_set_flag Z (if s1.cpu.A &&& value = 0 then 1 else 0) s1.cpu
  let c2 := cpu_set_flag N (read_bit value 7) c1
  let c3 := cpu_set_flag V (read_bit value 6) c2
  { s1 with cpu := c3, cycles := bsub s1.cycles 4 }

/-- case OPC_BVS_REL (0x70) has no break in the source and falls through to
case OPC_BIT_ZP. -/
def exec_BVS_chain (s : Machine) : Machine :=
  exec_BIT_ZP (branch s (cpu_read_flag V s.cpu) 1)

/-- case OPC_BVC_REL (0x50): falls through to BVS then BIT_ZP. -/
def exec_BVC_chain (s : Machine) : Machine :=
  let s1 := branch s (cpu_read_flag V s.cpu) 0
  exec_BVS_chain s1

/-- case OPC_BMI_REL (0x30): falls through to BVC, BVS, BIT_ZP. -/
def exec_BMI_chain (s : Machine) : Machine :=
  let s1 := branch s (cpu_read_flag N s.cpu) 1
  exec_BVC_chain s1

/-- case OPC_BPL_REL (0x10): falls through to BMI, BVC, BVS, BIT_ZP. -/
def exec_BPL_chain (s : Machine) : Machine :=
  let s1 := branch s (cpu_read_flag N s.cpu) 0
  exec_BMI_chain s1

/-- case OPC_BEQ_REL (0xF0): falls through to BPL, BMI, BVC, BVS, BIT_ZP. -/
def exec_BEQ_chain (s : Machine) : Machine :=
  let s1 := branch s (cpu_read_flag Z s.cpu) 1
  exec_BPL_chain s1

/-- case OPC_BNE_REL (0xD0): falls through to BEQ, BPL, BMI, BVC, BVS and
finally BIT_ZP, whose break ends the dispatch. -/
def exec_BNE_chain (s : Machine) : Machine :=
  let s1 := branch s (cpu_read_flag Z s.cpu) 0
  exec_BEQ_chain s1

/-- case OPC_BCC_REL (0x90): self-contained branch on C = 0 (has a break). -/
def exec_BCC (s : Machine) : Machine :=
  branch s (cpu_read_flag C s.cpu) 0

/-- case OPC_BCS_REL (0xB0): self-contained branch on C = 1 (has a break). -/
def exec_BCS (s : Machine) : Machine :=
  branch s (cpu_read_flag C s.cpu) 1

/-- case OPC_BRK_IMP (0x00): push (PC + 2) high byte then low byte, set I,
set B, push flags, clear B, load PC from the vector at 0xFFFE/F; 7 cycles. -/
def exec_BRK (s : Machine) : Machine :=
  let stack_PC := (s.cpu.PC + 2) % 65536
  let stack_PC_lo := stack_PC &&& 0xFF
  let stack_PC_hi := (stack_PC >>> 8) &&& 0xFF
  let s1 := stack_push stack_PC_hi s
  let s2 := stack_push stack_PC_lo s1
  let s3 := { s2 with cpu := cpu_set_flag I 1 s2.cpu }
  let s4 := { s3 with cpu := cpu_set_flag B 1 s3.cpu }
  let s5 := stack_push s4.cpu.flags s4
  let s6 := { s5 with cpu := cpu_set_flag B 0 s5.cpu }
  let lo := bus_read s6.mem 0xFFFE
  let hi := bus_read s6.mem 0xFFFF
  let addr := lo ||| (hi <<< 8)
  { s6 with cpu := { s6.cpu with PC := addr }, cycles := bsub s6.cycles 7 }

/-- The switch statement of cpu_execute, dispatching on the fetched opcode;
an unrecognized opcode costs one cycle (default case). -/
def dispatch (opcode : Nat) (s : Machine) : Machine :=
  if opcode = 0xA9 then exec_LDA_IM s
  else if opcode = 0xA5 then exec_LDA_ZP s
  else if opcode = 0xB5 then exec_LDA_ZPX s
  else if opcode = 0xAD then exec_LDA_ABS s
  else if opcode = 0xBD then exec_LDA_ABSX s
  else if opcode = 0xB9 then exec_LDA_ABSY s
  else if opcode = 0xA1 then exec_LDA_INDX s
  else if opcode = 0xB1 then exec_LDA_INDY s
  else if opcode = 0x85 then exec_STA_ZP s
  else if opcode = 0x95 then exec_STA_ZPX s
  else if opcode = 0x8D then exec_STA_ABS s
  else if opcode = 0x9D then exec_STA_ABSX s
  else if opcode = 0x99 then exec_STA_ABSY s
  else if opcode = 0x81 then exec_STA_INDX s
  else if opcode = 0x91 then exec_STA_INDY s
  else if opcode = 0x69 then exec_ADC_IM s
  else if opcode = 0x29 then exec_AND_IM s
  else if opcode = 0x25 then exec_AND_ZP s
  else if opcode = 0x35 then exec_AND_ZPX s
  else if opcode = 0x2D then exec_AND_ABS s
  else if opcode = 0x3D then exec_AND_ABSX s
  else if opcode = 0x39 then exec_AND_ABSY s
  else if opcode = 0x21 then exec_AND_INDX s
  else if opcode = 0x31 then exec_AND_INDY s
  else if opcode = 0x0A then exec_ASL_ACC s
  else if opcode = 0x1A then exec_ASL_ZP s
  else if opcode = 0x16 then exec_ASL_ZPX s
  else if opcode = 0x0E then exec_ASL_ABS s
  else if opcode = 0x1E then exec_ASL_ABSX s
  else if opcode = 0x90 then exec_BCC s
  else if opcode = 0xB0 then exec_BCS s
  else if opcode = 0xD0 then exec_BNE_chain s
  else if opcode = 0xF0 then exec_BEQ_chain s
  else if opcode = 0x10 then exec_BPL_chain s
  else if opcode = 0x30 then exec_BMI_chain s
  else if opcode = 0x50 then exec_BVC_chain s
  else if opcode = 0x70 then exec_BVS_chain s
  else if opcode = 0x24 then exec_BIT_ZP s
  else if opcode = 0x2C then exec_BIT_ABS s
  else if opcode = 0x00 then exec_BRK s
  else { s with cycles := bsub s.cycles 1 }

/-- One iteration of the while loop of cpu_execute: fetch an opcode byte and
run its case of the switch. -/
def cpu_step (s : Machine) : Machine :=
  let p := fetch_program_byte s
  dispatch p.1 p.2

/-- cpu.c cpu_execute with an explicit fuel bounding the number of loop
iterations: while cycles is nonzero (the unsigned Byte comparison
cycles > 0), run one fetch-dispatch step.  The C cycle budget is the
cycles field of the machine state. -/
def cpu_execute (fuel : Nat) (s : Machine) : Machine :=
  match fuel with
  | 0 => s
  | fuel + 1 => if s.cycles = 0 then s else cpu_execute fuel (cpu_step s)

/-! Concrete machine states used to evaluate the code on specific inputs.
Each mirrors a setup of the repository's own test harness: program bytes
live at 0x0200 (PRG_START), the machine comes out of reset with
flags = 0x24, and the budget is the instruction's nominal cost. -/

/-- ADC immediate at the harness setup A = 0xFF, C = 0, program 69 01. -/
def adcMachine : Machine :=
  { cpu := { PC := 0x0200, SP := 0xFF, A := 0xFF, X := 0, Y := 0, flags := 0x24 }
    mem := fun a => if a = 0x0200 then 0x69 else if a = 0x0201 then 0x01 else 0
    cycles := 2 }

/-- A single BNE with offset 0x10 at 0x0200, Z clear, budget 3 (the
self-contained taken cost). -/
def bneMachine : Machine :=
  { cpu := { PC := 0x0200, SP := 0xFF, A := 0, X := 0, Y := 0, flags := 0x24 }
    mem := fun a => if a = 0x0200 then 0xD0 else if a = 0x0201 then 0x10 else 0
    cycles := 3 }

/-- ASL zero-page,X at the harness setup X = 0x04, operand 0x10,
mem[0x10] = 0x21, mem[0x14] = 0x08. -/
def aslMachine : Machine :=
  { cpu := { PC := 0x0200, SP := 0xFF, A := 0, X := 0x04, Y := 0, flags := 0x24 }
    mem := fun a => if a = 0x0200 then 0x16 else if a = 0x0201 then 0x10
      else if a = 0x10 then 0x21 else if a = 0x14 then 0x08 else 0
    cycles := 6 }

/-- BRK at 0x0200 with the IRQ vector holding 0x1234, SP = 0xFF. -/
def brkMachine : Machine :=
  { cpu := { PC := 0x0200, SP := 0xFF, A := 0, X := 0, Y := 0, flags := 0x24 }
    mem := fun a => if a = 0x0200 then 0x00 else if a = 0xFFFE then 0x34
      else if a = 0xFFFF then 0x12 else 0
    cycles := 7 }

/-- LDA absolute,X with base 0x03FF and X = 1: the effective address 0x0400
crosses a page; mem[0x0400] = 0x5A. -/
def ldaAbsxMachine : Machine :=
  { cpu := { PC := 0x0200, SP := 0xFF, A := 0, X := 1, Y := 0, flags := 0x24 }
    mem := fun a => if a = 0x0200 then 0xBD else if a = 0x0201 then 0xFF
      else if a = 0x0202 then 0x03 else if a = 0x0400 then 0x5A else 0
    cycles := 8 }

/-- An arbitrary machine used as the input of reset in counterexamples. -/
def someMachine : Machine :=
  { cpu := { PC := 0x1234, SP := 0x80, A := 7, X := 8, Y := 9, flags := 0xFF }
    mem := fun _ => 0x55
    cycles := 0 }

/-- A machine whose P register has bit 5 clear and whose program is a
single unrecognized opcode (0xFF), budget 1. -/
def uClearMachine : Machine :=
  { cpu := { PC := 0x0200, SP := 0xFF, A := 0, X := 0, Y := 0, flags := 0 }
    mem := fun _ => 0xFF
    cycles := 1 }

/-- A machine with a zero cycle budget. -/
def zeroBudgetMachine : Machine :=
  { cpu := { PC := 0x0200, SP := 0xFF, A := 1, X := 2, Y := 3, flags := 0x24 }
    mem := fun _ => 0
    cycles := 0 }

/-- A machine whose 64 KiB are filled with the 2-cycle opcode 0xA9 (LDA
immediate) and whose budget is the odd value 1. -/
def oddBudgetMachine : Machine :=
  { cpu := { PC := 0x0200, SP := 0xFF, A := 0, X := 0, Y := 0, flags := 0x24 }
    mem := fun _ => 0xA9
    cycles := 1 }

/-- A machine out of reset (U set in flags, all-zero memory so BRK runs)
used as the witness input for the preserved-U theorem. -/
def uSetMachine : Machine :=
  { cpu := { PC := 0x0200, SP := 0xFF, A := 0, X := 0, Y := 0, flags := 0x24 }
    mem := fun _ => 0
    cycles := 7 }

/-- A machine whose SP is 0, for the stack wrap-around witness. -/
def zeroSPMachine : Machine :=
  { cpu := { PC := 0x0200, SP := 0x00, A := 0, X := 0, Y := 0, flags := 0x24 }
    mem := fun _ => 0
    cycles := 0 }

/-! Arithmetic bridges between the bitwise operations of the C source and
their quotient-remainder readings. -/

/-- Masking with 0xFF is reduction mod 256. -/
theorem land255 (x : Nat) : x &&& 255 = x % 256 := by
  have h := Nat.and_pow_two_sub_one_eq_mod x 8
  norm_num at h
  exact h

/-- Shifting right by 8 is division by 256. -/
theorem shr8 (x : Nat) : x >>> 8 = x / 256 := by
  have h := Nat.shiftRight_eq_div_pow x 8
  norm_num at h
  exact h

/-- Shifting left by 8 is multiplication by 256. -/
theorem shl8 (x : Nat) : x <<< 8 = x * 256 := by
  have h := Nat.shiftLeft_eq x 8
  norm_num at h
  exact h

/-- Assembling a little-endian word from two bytes: for a low byte below
256, lo | (hi << 8) is 256 * hi + lo. -/
theorem lor_add8 (lo hi : Nat) (h : lo < 256) : lo ||| (hi <<< 8) = 256 * hi + lo := by
  have hb : lo < 2 ^ 8 := by norm_num [h]
  have h256 : (256 : Nat) = 2 ^ 8 := by norm_num
  apply Nat.eq_of_testBit_eq
  intro j
  rw [Nat.testBit_or, Nat.testBit_shiftLeft, h256, Nat.testBit_mul_pow_two_add hi hb]
  by_cases hj : 8 ≤ j
  · have hlo : lo.testBit j = false :=
      Nat.testBit_eq_false_of_lt (lt_of_lt_of_le hb (Nat.pow_le_pow_right (by norm_num) hj))
    simp [hj, hlo, Nat.not_lt.mpr hj]
  · simp [hj, Nat.lt_of_not_le hj]

/-- Masking with 0xFF00 extracts the high byte of a 16-bit value, scaled
back into place. -/
theorem land_ff00 (x : Nat) : x &&& 65280 = x / 256 % 256 * 256 := by
  have e : (65280 : Nat) = (2 ^ 8 - 1) <<< 8 := by rw [Nat.shiftLeft_eq]; norm_num
  have h256 : (256 : Nat) = 2 ^ 8 := by norm_num
  apply Nat.eq_of_testBit_eq
  intro j
  have hrhs : x / 256 % 256 * 256 = 2 ^ 8 * (x / 256 % 256) + 0 := by ring
  rw [e, Nat.testBit_and, Nat.testBit_shiftLeft, Nat.testBit_two_pow_sub_one, hrhs,
    Nat.testBit_mul_pow_two_add _ (show 0 < 2 ^ 8 by norm_num)]
  by_cases hj : 8 ≤ j
  · have hxj : (x / 256 % 256).testBit (j - 8) = ((x / 256) % 2 ^ 8).testBit (j - 8) := by
      rw [h256]
    have hdiv : (x / 256).testBit (j - 8) = x.testBit j := by
      rw [← shr8, Nat.testBit_shiftRight, show 8 + (j - 8) = j by omega]
    rw [hxj, Nat.testBit_mod_two_pow, hdiv]
    simp only [if_neg (by omega : ¬ j < 8)]
    by_cases h2 : j - 8 < 8 <;> simp [h2, hj, Bool.and_comm]
  · simp [hj, Nat.lt_of_not_le hj]

/-- Claim C2: executing ADC immediate with A = 0xFF, M = 0x01, carry-in 0
(the setup of the repository's own carry-out test) stores the truncated
result 0x00 in A and sets C, but leaves Z = 0 and N = 1: set_NZ_flags runs
on the pre-add accumulator before the sum is stored, so Z and N do not come
from the truncated result as the claim requires (Z should be 1 and N should
be 0 for the result 0x00). -/
theorem C2_adc_zn_from_old_accumulator :
    (cpu_step adcMachine).cpu.A = 0x00 ∧
    cpu_read_flag C (cpu_step adcMachine).cpu = 1 ∧
    cpu_read_flag Z (cpu_step adcMachine).cpu = 0 ∧
    cpu_read_flag N (cpu_step adcMachine).cpu = 1 := by
  refine ⟨?_, ?_, ?_, ?_⟩ <;> rfl

/-- Claim C4: dispatching a single taken BNE (opcode 0xD0, offset 0x10,
Z = 0) from 0x0200 is not self-contained: the missing breaks make it fall
through BEQ, BPL, BMI, BVC, BVS and BIT zero-page, so PC ends at 0x0218
instead of the self-contained target 0x0212, the Z flag is overwritten by
the BIT semantics, and the budget of 3 wraps to 241 instead of reaching 0. -/
theorem C4_branch_fallthrough :
    (cpu_step bneMachine).cpu.PC = 0x0218 ∧
    (cpu_step bneMachine).cpu.PC ≠ 0x0212 ∧
    cpu_read_flag Z (cpu_step bneMachine).cpu = 1 ∧
    (cpu_step bneMachine).cycles = 241 := by
  refine ⟨?_, ?_, ?_, ?_⟩ <;> first | rfl | decide

/-- Claim C6: executing ASL zero-page,X with operand 0x10 and X = 0x04 (the
setup of the repository's own ASL ZP,X test) reads and writes the raw
operand address 0x10, whose byte 0x21 becomes 0x42, and leaves the claimed
effective address 0x14 = (0x10 + 0x04) mod 256 untouched at 0x08 instead of
storing the shifted value 0x10 there. -/
theorem C6_asl_zpx_unindexed :
    bus_read (cpu_step aslMachine).mem 0x10 = 0x42 ∧
    bus_read (cpu_step aslMachine).mem 0x14 = 0x08 ∧
    bus_read (cpu_step aslMachine).mem 0x14 ≠ 0x10 := by
  refine ⟨?_, ?_, ?_⟩ <;> first | rfl | decide

/-- Claim C5, counterexample: cpu_reset (the cpu.c of part_001, the one the
test harness exercises) sets PC to 0x01FF and SP to 0xFF, not 0x0100 and
0xFD as the claim states. -/
theorem C5_reset_pc_sp_counterexample :
    (cpu_reset someMachine).cpu.PC = 0x01FF ∧ (cpu_reset someMachine).cpu.PC ≠ 0x0100 ∧
    (cpu_reset someMachine).cpu.SP = 0xFF ∧ (cpu_reset someMachine).cpu.SP ≠ 0xFD := by
  refine ⟨?_, ?_, ?_, ?_⟩ <;> first | rfl | decide

/-- Claim C5, amended: for every machine, cpu_reset establishes PC = 0x01FF,
SP = 0xFF, A = X = Y = 0, P = 0b00100100 (only I and U set), and zeroes the
memory backing via bus reset. -/
theorem C5_reset_establishes (s : Machine) :
    (cpu_reset s).cpu.PC = 0x01FF ∧ (cpu_reset s).cpu.SP = 0xFF ∧
    (cpu_reset s).cpu.A = 0 ∧ (cpu_reset s).cpu.X = 0 ∧ (cpu_reset s).cpu.Y = 0 ∧
    (cpu_reset s).cpu.flags = 0b00100100 ∧ ∀ a, (cpu_reset s).mem a = 0 :=
  ⟨rfl, rfl, rfl, rfl, rfl, rfl, fun _ => rfl⟩

/-- Claim C3, counterexample: a BRK fetched at 0x0200 (so PC = 0x0201 just
past the opcode) pushes the return word 0x0203 = PC + 2, not 0x0202 = PC + 1
as the claim states: the low byte on the stack at 0x01FE is 0x03, not 0x02
(the high byte at 0x01FF is 0x02 in both readings). -/
theorem C3_brk_counterexample :
    bus_read (cpu_step brkMachine).mem 0x01FF = 0x02 ∧
    bus_read (cpu_step brkMachine).mem 0x01FE = 0x03 ∧
    bus_read (cpu_step brkMachine).mem 0x01FE ≠ 0x02 := by
  refine ⟨?_, ?_, ?_⟩ <;> first | rfl | decide

/-- Claim C7, counterexample: starting from a state whose P register is 0
(bit 5 clear) and running a 1-cycle budget over an unrecognized opcode, the
execute call returns with the budget exhausted and bit 5 of P still 0: no
flag write happened, so the forced-U rule never fired. -/
theorem C7_u_bit_counterexample :
    (cpu_execute 2 uClearMachine).cycles = 0 ∧
    cpu_read_flag U (cpu_execute 2 uClearMachine).cpu = 0 := by
  refine ⟨?_, ?_⟩ <;> rfl

/-- Claim C10: calling cpu_execute with a cycle budget of 0 never enters the
loop body: the machine, including every memory byte and all CPU registers,
is returned unchanged for any fuel. -/
theorem C10_zero_budget (fuel : Nat) (s : Machine) (h : s.cycles = 0) :
    cpu_execute fuel s = s := by
  cases fuel with
  | zero => rfl
  | succ n => simp [cpu_execute, h]

/-- Witness for C10 at a concrete machine with budget 0. -/
theorem C10_zero_budget_witness :
    zeroBudgetMachine.cycles = 0 ∧ cpu_execute 5 zeroBudgetMachine = zeroBudgetMachine :=
  ⟨rfl, C10_zero_budget 5 zeroBudgetMachine rfl⟩

/-! Preservation of the forced U bit: every flags value written by
cpu_set_flag has bit 5 set, and every opcode handler either writes its
flags through cpu_set_flag or leaves them untouched. -/

/-- Any value ORed with the U mask has bit 5 set, read back as 1 by the
(flags >> 5) & 1 idiom of cpu_read_flag. -/
theorem U_or (y : Nat) : ((y ||| 1 <<< U) >>> 5) &&& 1 = 1 := by
  show ((y ||| 32) >>> 5) &&& 1 = 1
  rw [Nat.and_one_is_mod, Nat.shiftRight_eq_div_pow]
  have h : (y ||| 32).testBit 5 = true := by
    rw [Nat.testBit_or]
    have h32 : Nat.testBit 32 5 = true := by decide
    simp [h32]
  rw [Nat.testBit_to_div_mod] at h
  exact of_decide_eq_true h

/-- cpu_set_flag forces the U bit on regardless of the flag written. -/
theorem cpu_set_flag_readU (f v : Nat) (c : CPU) :
    cpu_read_flag U (cpu_set_flag f v c) = 1 := by
  simp only [cpu_set_flag, cpu_read_flag]
  exact U_or _

/-- Reading a flag only depends on the flags byte. -/
theorem read_flag_of_flags_eq {c1 c2 : CPU} (f : Nat) (h : c1.flags = c2.flags) :
    cpu_read_flag f c1 = cpu_read_flag f c2 := by
  unfold cpu_read_flag
  rw [h]

/-- The branch helper never writes flags. -/
theorem branch_flags (s : Machine) (f cv : Nat) : (branch s f cv).cpu.flags = s.cpu.flags := by
  unfold branch
  split <;> rfl

theorem readU_LDA_IM (s : Machine) : cpu_read_flag U (exec_LDA_IM s).cpu = 1 := by
  simp only [exec_LDA_IM, set_NZ_flags, cpu_read_flag, cpu_set_flag]
  exact U_or _

theorem readU_LDA_ZP (s : Machine) : cpu_read_flag U (exec_LDA_ZP s).cpu = 1 := by
  simp only [exec_LDA_ZP, set_NZ_flags, cpu_read_flag, cpu_set_flag]
  exact U_or _

theorem readU_LDA_ZPX (s : Machine) : cpu_read_flag U (exec_LDA_ZPX s).cpu = 1 := by
  simp only [exec_LDA_ZPX, set_NZ_flags, cpu_read_flag, cpu_set_flag]
  exact U_or _

theorem readU_LDA_ABS (s : Machine) : cpu_read_flag U (exec_LDA_ABS s).cpu = 1 := by
  simp only [exec_LDA_ABS, set_NZ_flags, cpu_read_flag, cpu_set_flag]
  exact U_or _

theorem readU_LDA_ABSX (s : Machine) : cpu_read_flag U (exec_LDA_ABSX s).cpu = 1 := by
  simp only [exec_LDA_ABSX, indexed_LDA_ABS, set_NZ_flags, cpu_read_flag, cpu_set_flag]
  exact U_or _

theorem readU_LDA_ABSY (s : Machine) : cpu_read_flag U (exec_LDA_ABSY s).cpu = 1 := by
  simp only [exec_LDA_ABSY, indexed_LDA_ABS, set_NZ_flags, cpu_read_flag, cpu_set_flag]
  exact U_or _

theorem readU_LDA_INDX (s : Machine) : cpu_read_flag U (exec_LDA_INDX s).cpu = 1 := by
  simp only [exec_LDA_INDX, set_NZ_flags, cpu_read_flag, cpu_set_flag]
  exact U_or _

theorem readU_LDA_INDY (s : Machine) : cpu_read_flag U (exec_LDA_INDY s).cpu = 1 := by
  simp only [exec_LDA_INDY, set_NZ_flags, cpu_read_flag, cpu_set_flag]
  exact U_or _

theorem readU_ADC_IM (s : Machine) : cpu_read_flag U (exec_ADC_IM s).cpu = 1 := by
  simp only [exec_ADC_IM, set_NZ_flags, cpu_read_flag, cpu_set_flag]
  exact U_or _

theorem readU_AND_IM (s : Machine) : cpu_read_flag U (exec_AND_IM s).cpu = 1 := by
  simp only [exec_AND_IM, set_NZ_flags, cpu_read_flag, cpu_set_flag]
  exact U_or _

theorem readU_AND_ZP (s : Machine) : cpu_read_flag U (exec_AND_ZP s).cpu = 1 := by
  simp only [exec_AND_ZP, set_NZ_flags, cpu_read_flag, cpu_set_flag]
  exact U_or _

theorem readU_AND_ZPX (s : Machine) : cpu_read_flag U (exec_AND_ZPX s).cpu = 1 := by
  simp only [exec_AND_ZPX, set_NZ_flags, cpu_read_flag, cpu_set_flag]
  exact U_or _

theorem readU_AND_ABS (s : Machine) : cpu_read_flag U (exec_AND_ABS s).cpu = 1 := by
  simp only [exec_AND_ABS, set_NZ_flags, cpu_read_flag, cpu_set_flag]
  exact U_or _

theorem readU_AND_ABSX (s : Machine) : cpu_read_flag U (exec_AND_ABSX s).cpu = 1 := by
  simp only [exec_AND_ABSX, indexed_AND_ABS, set_NZ_flags, cpu_read_flag, cpu_set_flag]
  exact U_or _

theorem readU_AND_ABSY (s : Machine) : cpu_read_flag U (exec_AND_ABSY s).cpu = 1 := by
  simp only [exec_AND_ABSY, indexed_AND_ABS, set_NZ_flags, cpu_read_flag, cpu_set_flag]
  exact U_or _

theorem readU_AND_INDX (s : Machine) : cpu_read_flag U (exec_AND_INDX s).cpu = 1 := by
  simp only [exec_AND_INDX, set_NZ_flags, cpu_read_flag, cpu_set_flag]
  exact U_or _

theorem readU_AND_INDY (s : Machine) : cpu_read_flag U (exec_AND_INDY s).cpu = 1 := by
  simp only [exec_AND_INDY, set_NZ_flags, cpu_read_flag, cpu_set_flag]
  exact U_or _

theorem readU_ASL_ACC (s : Machine) : cpu_read_flag U (exec_ASL_ACC s).cpu = 1 := by
  simp only [exec_ASL_ACC, set_NZ_flags, cpu_read_flag, cpu_set_flag]
  exact U_or _

theorem readU_ASL_ZP (s : Machine) : cpu_read_flag U (exec_ASL_ZP s).cpu = 1 := by
  simp only [exec_ASL_ZP, cpu_read_flag, cpu_set_flag]
  exact U_or _

theorem readU_ASL_ZPX (s : Machine) : cpu_read_flag U (exec_ASL_ZPX s).cpu = 1 := by
  simp only [exec_ASL_ZPX, cpu_read_flag, cpu_set_flag]
  exact U_or _

theorem readU_ASL_ABS (s : Machine) : cpu_read_flag U (exec_ASL_ABS s).cpu = 1 := by
  simp only [exec_ASL_ABS, cpu_read_flag, cpu_set_flag]
  exact U_or _

theorem readU_ASL_ABSX (s : Machine) : cpu_read_flag U (exec_ASL_ABSX s).cpu = 1 := by
  simp only [exec_ASL_ABSX, cpu_read_flag, cpu_set_flag]
  exact U_or _

theorem readU_BIT_ZP (s : Machine) : cpu_read_flag U (exec_BIT_ZP s).cpu = 1 := by
  simp only [exec_BIT_ZP, cpu_read_flag, cpu_set_flag]
  exact U_or _

theorem readU_BIT_ABS (s : Machine) : cpu_read_flag U (exec_BIT_ABS s).cpu = 1 := by
  simp only [exec_BIT_ABS, cpu_read_flag, cpu_set_flag]
  exact U_or _

theorem readU_BRK (s : Machine) : cpu_read_flag U (exec_BRK s).cpu = 1 := by
  simp only [exec_BRK, stack_push, cpu_read_flag, cpu_set_flag]
  exact U_or _

theorem readU_BVS_chain (s : Machine) : cpu_read_flag U (exec_BVS_chain s).cpu = 1 := by
  unfold exec_BVS_chain
  exact readU_BIT_ZP _

theorem readU_BVC_chain (s : Machine) : cpu_read_flag U (exec_BVC_chain s).cpu = 1 := by
  unfold exec_BVC_chain
  exact readU_BVS_chain _

theorem readU_BMI_chain (s : Machine) : cpu_read_flag U (exec_BMI_chain s).cpu = 1 := by
  unfold exec_BMI_chain
  exact readU_BVC_chain _

theorem readU_BPL_chain (s : Machine) : cpu_read_flag U (exec_BPL_chain s).cpu = 1 := by
  unfold exec_BPL_chain
  exact readU_BMI_chain _

theorem readU_BEQ_chain (s : Machine) : cpu_read_flag U (exec_BEQ_chain s).cpu = 1 := by
  unfold exec_BEQ_chain
  exact readU_BPL_chain _

theorem readU_BNE_chain (s : Machine) : cpu_read_flag U (exec_BNE_chain s).cpu = 1 := by
  unfold exec_BNE_chain
  exact readU_BEQ_chain _

theorem readU_BCC (s : Machine) (h : cpu_read_flag U s.cpu = 1) :
    cpu_read_flag U (exec_BCC s).cpu = 1 := by
  unfold exec_BCC
  rw [read_flag_of_flags_eq U (branch_flags s _ 0)]
  exact h

theorem readU_BCS (s : Machine) (h : cpu_read_flag U s.cpu = 1) :
    cpu_read_flag U (exec_BCS s).cpu = 1 := by
  unfold exec_BCS
  rw [read_flag_of_flags_eq U (branch_flags s _ 1)]
  exact h

/-- Dispatching any opcode from a state whose U bit reads as 1 yields a
state whose U bit still reads as 1. -/
theorem dispatch_readU (op : Nat) (s : Machine) (h : cpu_read_flag U s.cpu = 1) :
    cpu_read_flag U (dispatch op s).cpu = 1 := by
  unfold dispatch
  by_cases hc1 : op = 0xA9
  · rw [if_pos hc1]; exact readU_LDA_IM _
  rw [if_neg hc1]
  by_cases hc2 : op = 0xA5
  · rw [if_pos hc2]; exact readU_LDA_ZP _
  rw [if_neg hc2]
  by_cases hc3 : op = 0xB5
  · rw [if_pos hc3]; exact readU_LDA_ZPX _
  rw [if_neg hc3]
  by_cases hc4 : op = 0xAD
  · rw [if_pos hc4]; exact readU_LDA_ABS _
  rw [if_neg hc4]
  by_cases hc5 : op = 0xBD
  · rw [if_pos hc5]; exact readU_LDA_ABSX _
  rw [if_neg hc5]
  by_cases hc6 : op = 0xB9
  · rw [if_pos hc6]; exact readU_LDA_ABSY _
  rw [if_neg hc6]
  by_cases hc7 : op = 0xA1
  · rw [if_pos hc7]; exact readU_LDA_INDX _
  rw [if_neg hc7]
  by_cases hc8 : op = 0xB1
  · rw [if_pos hc8]; exact readU_LDA_INDY _
  rw [if_neg hc8]
  by_cases hc9 : op = 0x85
  · rw [if_pos hc9]; exact h
  rw [if_neg hc9]
  by_cases hc10 : op = 0x95
  · rw [if_pos hc10]; exact h
  rw [if_neg hc10]
  by_cases hc11 : op = 0x8D
  · rw [if_pos hc11]; exact h
  rw [if_neg hc11]
  by_cases hc12 : op = 0x9D
  · rw [if_pos hc12]; exact h
  rw [if_neg hc12]
  by_cases hc13 : op = 0x99
  · rw [if_pos hc13]; exact h
  rw [if_neg hc13]
  by_cases hc14 : op = 0x81
  · rw [if_pos hc14]; exact h
  rw [if_neg hc14]
  by_cases hc15 : op = 0x91
  · rw [if_pos hc15]; exact h
  rw [if_neg hc15]
  by_cases hc16 : op = 0x69
  · rw [if_pos hc16]; exact readU_ADC_IM _
  rw [if_neg hc16]
  by_cases hc17 : op = 0x29
  · rw [if_pos hc17]; exact readU_AND_IM _
  rw [if_neg hc17]
  by_cases hc18 : op = 0x25
  · rw [if_pos hc18]; exact readU_AND_ZP _
  rw [if_neg hc18]
  by_cases hc19 : op = 0x35
  · rw [if_pos hc19]; exact readU_AND_ZPX _
  rw [if_neg hc19]
  by_cases hc20 : op = 0x2D
  · rw [if_pos hc20]; exact readU_AND_ABS _
  rw [if_neg hc20]
  by_cases hc21 : op = 0x3D
  · rw [if_pos hc21]; exact readU_AND_ABSX _
  rw [if_neg hc21]
  by_cases hc22 : op = 0x39
  · rw [if_pos hc22]; exact readU_AND_ABSY _
  rw [if_neg hc22]
  by_cases hc23 : op = 0x21
  · rw [if_pos hc23]; exact readU_AND_INDX _
  rw [if_neg hc23]
  by_cases hc24 : op = 0x31
  · rw [if_pos hc24]; exact readU_AND_INDY _
  rw [if_neg hc24]
  by_cases hc25 : op = 0x0A
  · rw [if_pos hc25]; exact readU_ASL_ACC _
  rw [if_neg hc25]
  by_cases hc26 : op = 0x1A
  · rw [if_pos hc26]; exact readU_ASL_ZP _
  rw [if_neg hc26]
  by_cases hc27 : op = 0x16
  · rw [if_pos hc27]; exact readU_ASL_ZPX _
  rw [if_neg hc27]
  by_cases hc28 : op = 0x0E
  · rw [if_pos hc28]; exact readU_ASL_ABS _
  rw [if_neg hc28]
  by_cases hc29 : op = 0x1E
  · rw [if_pos hc29]; exact readU_ASL_ABSX _
  rw [if_neg hc29]
  by_cases hc30 : op = 0x90
  · rw [if_pos hc30]; exact readU_BCC _ h
  rw [if_neg hc30]
  by_cases hc31 : op = 0xB0
  · rw [if_pos hc31]; exact readU_BCS _ h
  rw [if_neg hc31]
  by_cases hc32 : op = 0xD0
  · rw [if_pos hc32]; exact readU_BNE_chain _
  rw [if_neg hc32]
  by_cases hc33 : op = 0xF0
  · rw [if_pos hc33]; exact readU_BEQ_chain _
  rw [if_neg hc33]
  by_cases hc34 : op = 0x10
  · rw [if_pos hc34]; exact readU_BPL_chain _
  rw [if_neg hc34]
  by_cases hc35 : op = 0x30
  · rw [if_pos hc35]; exact readU_BMI_chain _
  rw [if_neg hc35]
  by_cases hc36 : op = 0x50
  · rw [if_pos hc36]; exact readU_BVC_chain _
  rw [if_neg hc36]
  by_cases hc37 : op = 0x70
  · rw [if_pos hc37]; exact readU_BVS_chain _
  rw [if_neg hc37]
  by_cases hc38 : op = 0x24
  · rw [if_pos hc38]; exact readU_BIT_ZP _
  rw [if_neg hc38]
  by_cases hc39 : op = 0x2C
  · rw [if_pos hc39]; exact readU_BIT_ABS _
  rw [if_neg hc39]
  by_cases hc40 : op = 0x00
  · rw [if_pos hc40]; exact readU_BRK _
  rw [if_neg hc40]
  exact h

/-- One fetch-dispatch step preserves a set U bit. -/
theorem cpu_step_readU (s : Machine) (h : cpu_read_flag U s.cpu = 1) :
    cpu_read_flag U (cpu_step s).cpu = 1 := by
  unfold cpu_step
  exact dispatch_readU _ _ h

/-- Claim C7, amended: for every initial CPU state whose P register already
has bit 5 set, every program, budget and fuel, after cpu_execute the U bit
of P still reads as 1 (cpu_execute preserves a set U bit; it does not
establish it from a cleared one, as the counterexample shows). -/
theorem C7_u_bit_preserved (fuel : Nat) (s : Machine) (h : cpu_read_flag U s.cpu = 1) :
    cpu_read_flag U (cpu_execute fuel s).cpu = 1 := by
  induction fuel generalizing s with
  | zero => exact h
  | succ n ih =>
    simp only [cpu_execute]
    split
    · exact h
    · exact ih _ (cpu_step_readU s h)

/-- Witness for amended C7 at a concrete machine with U initially set. -/
theorem C7_u_bit_preserved_witness :
    cpu_read_flag U uSetMachine.cpu = 1 ∧
    cpu_read_flag U (cpu_execute 3 uSetMachine).cpu = 1 :=
  ⟨rfl, C7_u_bit_preserved 3 uSetMachine rfl⟩

/-! The dispatch loop with an all-0xA9 memory: every step runs LDA
immediate, which costs 2 cycles, so an odd unsigned budget can never reach
0 and the while condition never becomes false. -/

/-- With memory constantly 0xA9, a step leaves memory unchanged and turns
the Byte budget c into (c + 254) mod 256 (the wrapped subtraction of 2). -/
theorem cpu_step_lda_const (s : Machine) (hm : ∀ a, s.mem a = 0xA9) :
    (∀ a, (cpu_step s).mem a = 0xA9) ∧ (cpu_step s).cycles = (s.cycles + 254) % 256 := by
  have hop : bus_read s.mem s.cpu.PC = 0xA9 := by
    unfold bus_read mem_read
    rw [hm]
  have hd : cpu_step s =
      exec_LDA_IM { s with cpu := { s.cpu with PC := (s.cpu.PC + 1) % 65536 } } := by
    simp [cpu_step, fetch_program_byte, dispatch, hop]
  rw [hd]
  constructor
  · intro a
    exact hm a
  · simp only [exec_LDA_IM, fetch_program_byte, bsub]
    omega

/-- Iterating the loop from an all-0xA9 memory and an odd budget keeps the
memory constant and the budget odd. -/
theorem cpu_execute_odd_invariant (fuel : Nat) :
    ∀ s : Machine, (∀ a, s.mem a = 0xA9) → s.cycles % 2 = 1 →
      (∀ a, (cpu_execute fuel s).mem a = 0xA9) ∧ (cpu_execute fuel s).cycles % 2 = 1 := by
  induction fuel with
  | zero => exact fun s hm hc => ⟨hm, hc⟩
  | succ n ih =>
    intro s hm hc
    simp only [cpu_execute]
    split
    · exact ⟨hm, hc⟩
    · obtain ⟨hm2, hcyc⟩ := cpu_step_lda_const s hm
      exact ih _ hm2 (by omega)

/-- Claim C1: on the machine whose memory is filled with the 2-cycle opcode
0xA9 and whose budget is 1, the first instruction's cost overshoots the
budget and the unsigned Byte subtraction wraps it to 255, re-enabling the
loop; the budget stays odd forever, so no number of loop iterations ever
exhausts it and cpu_execute never returns through its loop guard: the
overshoot is not treated as a zero budget and the call does not terminate. -/
theorem C1_budget_wraps_and_loops :
    (cpu_step oddBudgetMachine).cycles = 255 ∧
    ∀ fuel : Nat, 0 < (cpu_execute fuel oddBudgetMachine).cycles := by
  constructor
  · have h := cpu_step_lda_const oddBudgetMachine (fun _ => rfl)
    exact h.2.trans rfl
  · intro fuel
    have h := cpu_execute_odd_invariant fuel oddBudgetMachine (fun _ => rfl) rfl
    omega

/-- cpu_set_flag never changes the accumulator. -/
theorem cpu_set_flag_A (f v : Nat) (c : CPU) : (cpu_set_flag f v c).A = c.A := rfl

/-- cpu_set_flag never changes the stack pointer. -/
theorem cpu_set_flag_SP (f v : Nat) (c : CPU) : (cpu_set_flag f v c).SP = c.SP := rfl

/-- Claim C3, amended: for every machine state entering the BRK handler
(PC just past the fetched 0x00 opcode), the handler pushes the word
PC + 2 onto the stack, high byte first at 0x100 + SP, then low byte one
stack slot below, so the pushed return address points two bytes past the
position following the BRK opcode (a two-byte signature slot). -/
theorem C3_brk_push_word (s : Machine) :
    bus_read (exec_BRK s).mem (0x100 + s.cpu.SP) = (s.cpu.PC + 2) % 65536 / 256 ∧
    bus_read (exec_BRK s).mem (0x100 + (s.cpu.SP + 255) % 256) = (s.cpu.PC + 2) % 65536 % 256 := by
  simp only [exec_BRK, stack_push, bus_write, mem_write, bus_read, mem_read,
    cpu_set_flag_SP, land255, shr8]
  constructor <;> (split_ifs <;> omega)

/-- Claim C8: dispatching opcode 0xBD (LDA absolute,X) loads A from the
effective address base + X taken mod 65536, where base is the little-endian
word fetched at PC + 1 and PC + 2, and subtracts 4 cycles plus exactly one
more when the high byte of the effective address differs from the high byte
of base. -/
theorem C8_lda_absx (s : Machine) (h : bus_read s.mem s.cpu.PC = 0xBD) :
    (cpu_step s).cpu.A =
      bus_read s.mem
        ((256 * bus_read s.mem (((s.cpu.PC + 1) % 65536 + 1) % 65536) +
          bus_read s.mem ((s.cpu.PC + 1) % 65536) + s.cpu.X) % 65536) ∧
    (cpu_step s).cycles =
      (s.cycles + 256 -
        (4 + (if ((256 * bus_read s.mem (((s.cpu.PC + 1) % 65536 + 1) % 65536) +
                   bus_read s.mem ((s.cpu.PC + 1) % 65536) + s.cpu.X) % 65536) / 256 =
                 (256 * bus_read s.mem (((s.cpu.PC + 1) % 65536 + 1) % 65536) +
                  bus_read s.mem ((s.cpu.PC + 1) % 65536)) / 256
              then 0 else 1))) % 256 := by
  have hlo : bus_read s.mem ((s.cpu.PC + 1) % 65536) < 256 := Nat.mod_lt _ (by norm_num)
  have hhi : bus_read s.mem (((s.cpu.PC + 1) % 65536 + 1) % 65536) < 256 :=
    Nat.mod_lt _ (by norm_num)
  have hd : cpu_step s =
      exec_LDA_ABSX { s with cpu := { s.cpu with PC := (s.cpu.PC + 1) % 65536 } } := by
    simp [cpu_step, fetch_program_byte, dispatch, h]
  rw [hd]
  simp only [exec_LDA_ABSX, indexed_LDA_ABS, fetch_program_word, fetch_program_byte,
    set_NZ_flags, bsub, cpu_set_flag_A]
  simp only [lor_add8 _ _ hlo, land_ff00]
  exact ⟨trivial, by split_ifs <;> omega⟩

/-- Witness for C8 at base 0x03FF and X = 1: the load comes from 0x0400 and
5 cycles are deducted (8 - 5 = 3 remain). -/
theorem C8_lda_absx_witness :
    bus_read ldaAbsxMachine.mem ldaAbsxMachine.cpu.PC = 0xBD ∧
    (cpu_step ldaAbsxMachine).cpu.A = bus_read ldaAbsxMachine.mem 0x0400 ∧
    (cpu_step ldaAbsxMachine).cycles = 3 :=
  ⟨rfl, ((C8_lda_absx ldaAbsxMachine rfl).1).trans (by rfl),
    ((C8_lda_absx ldaAbsxMachine rfl).2).trans (by rfl)⟩

/-- Claim C9: pushing hi then lo and popping twice returns lo first and hi
second, restores SP, and touches no memory outside the stack page
0x0100-0x01FF (every access is at 0x0100 + SP for an 8-bit SP). -/
theorem C9_stack_roundtrip (s : Machine) (hsp : s.cpu.SP < 256)
    (hi lo : Nat) (hhi : hi < 256) (hlo : lo < 256) :
    (stack_pop (stack_push lo (stack_push hi s))).1 = lo ∧
    (stack_pop (stack_pop (stack_push lo (stack_push hi s))).2).1 = hi ∧
    (stack_pop (stack_pop (stack_push lo (stack_push hi s))).2).2.cpu.SP = s.cpu.SP ∧
    (∀ a, a < 0x100 →
      (stack_pop (stack_pop (stack_push lo (stack_push hi s))).2).2.mem a = s.mem a) ∧
    (∀ a, 0x200 ≤ a →
      (stack_pop (stack_pop (stack_push lo (stack_push hi s))).2).2.mem a = s.mem a) := by
  simp only [stack_push, stack_pop, bus_read, bus_write, mem_read, mem_write]
  refine ⟨?_, ?_, ?_, ?_, ?_⟩
  · split_ifs <;> omega
  · split_ifs <;> omega
  · omega
  · intro a ha
    split_ifs <;> first | rfl | omega
  · intro a ha
    split_ifs <;> first | rfl | omega

/-- Witness for C9 at SP = 0 (exercising the wrap-around), hi = 0xAB,
lo = 0xCD. -/
theorem C9_stack_roundtrip_witness :
    (stack_pop (stack_push 0xCD (stack_push 0xAB zeroSPMachine))).1 = 0xCD ∧
    (stack_pop (stack_pop (stack_push 0xCD (stack_push 0xAB zeroSPMachine))).2).1 = 0xAB ∧
    (stack_pop (stack_pop (stack_push 0xCD (stack_push 0xAB zeroSPMachine))).2).2.cpu.SP =
      zeroSPMachine.cpu.SP :=
  have h := C9_stack_roundtrip zeroSPMachine (by decide) 0xAB 0xCD (by decide) (by decide)
  ⟨h.1, h.2.1, h.2.2.1⟩

end NES
